import Mathlib

/-!
# Shallow embedding of the `spot-margin` risk/pricing kernel

This file embeds the arithmetic and oracle-classification kernel of the
`programs/spot_margin` crate in Lean 4 and proves/refutes the stated
properties of its specification.

Machine integers are modelled as `Nat` (unsigned widths) and `Int`
(signed widths) together with explicit range checks mirroring Rust's
`checked_*` operations; fallible code returns `Except ErrCode` mirroring
`SpedXSpotResult`.
-/

set_option maxRecDepth 8000

namespace SpotMargin

/-- Error codes from `error.rs` (the subset reachable from the embedded code). -/
inductive ErrCode where
  | BigNumberConversionError
  | CastingFailure
  | MathError
  | InvalidOracle
  | OracleNegativeError
  | OracleTooVolatile
  | OracleConfidenceTooWide
  | OraclePriceStaleForMargin
  | UnableToCastUnixTimestamp
  deriving DecidableEq, Repr

abbrev SpotResult (α : Type) := Except ErrCode α

/-! ## Integer width bounds -/

def U64MAX : ℕ := 2 ^ 64 - 1
def U128MAX : ℕ := 2 ^ 128 - 1
def I64MIN : ℤ := -(2 ^ 63)
def I64MAX : ℤ := 2 ^ 63 - 1
def I128MIN : ℤ := -(2 ^ 127)
def I128MAX : ℤ := 2 ^ 127 - 1

/-! ## `SafeMath` for `u128` (safe_math.rs, `checked_impl!(u128)`) -/

/-- Rust `u128::checked_add` wrapped by `safe_add`. -/
def u128SafeAdd (a b : ℕ) : SpotResult ℕ :=
  if a + b ≤ U128MAX then .ok (a + b) else .error .MathError

/-- Rust `u128::checked_sub` wrapped by `safe_sub`. -/
def u128SafeSub (a b : ℕ) : SpotResult ℕ :=
  if b ≤ a then .ok (a - b) else .error .MathError

/-- Rust `u128::checked_mul` wrapped by `safe_mul`. -/
def u128SafeMul (a b : ℕ) : SpotResult ℕ :=
  if a * b ≤ U128MAX then .ok (a * b) else .error .MathError

/-- Rust `u128::checked_div`: `None` exactly on a zero divisor. -/
def u128CheckedDiv (a b : ℕ) : Option ℕ :=
  if b = 0 then none else some (a / b)

/-- Rust `u128::checked_div` wrapped by `safe_div`. -/
def u128SafeDiv (a b : ℕ) : SpotResult ℕ :=
  if b = 0 then .error .MathError else .ok (a / b)

/-- `checked_ceil_div` from ceil_div.rs for `u128`: truncated quotient,
plus one when the remainder is positive. -/
def u128CheckedCeilDiv (a b : ℕ) : Option ℕ :=
  if b = 0 then none else
    let quotient := a / b
    let remainder := a % b
    if remainder > 0 then
      if quotient + 1 ≤ U128MAX then some (quotient + 1) else none
    else some quotient

/-- `safe_ceil_div` for `u128` (safe_math.rs). -/
def u128SafeCeilDiv (a b : ℕ) : SpotResult ℕ :=
  match u128CheckedCeilDiv a b with
  | some r => .ok r
  | none => .error .MathError

/-! ## `SafeMath` for `u64` -/

def u64SafeAdd (a b : ℕ) : SpotResult ℕ :=
  if a + b ≤ U64MAX then .ok (a + b) else .error .MathError

def u64SafeSub (a b : ℕ) : SpotResult ℕ :=
  if b ≤ a then .ok (a - b) else .error .MathError

def u64SafeMul (a b : ℕ) : SpotResult ℕ :=
  if a * b ≤ U64MAX then .ok (a * b) else .error .MathError

def u64SafeDiv (a b : ℕ) : SpotResult ℕ :=
  if b = 0 then .error .MathError else .ok (a / b)

/-- Rust `u64::checked_rem_euclid`: `None` exactly on a zero divisor. -/
def u64CheckedRemEuclid (a b : ℕ) : Option ℕ :=
  if b = 0 then none else some (a % b)

/-! ## `SafeMath` for `i64` / `i128`

Rust `/` and `%` on signed integers truncate toward zero, matching
`Int.tdiv` / `Int.tmod`; `checked_div`/`checked_rem` are `None` on a zero
divisor or on `MIN / -1` overflow. -/

def i64InRange (a : ℤ) : Prop := I64MIN ≤ a ∧ a ≤ I64MAX

instance (a : ℤ) : Decidable (i64InRange a) := by
  unfold i64InRange; infer_instance

def i128InRange (a : ℤ) : Prop := I128MIN ≤ a ∧ a ≤ I128MAX

instance (a : ℤ) : Decidable (i128InRange a) := by
  unfold i128InRange; infer_instance

def i64SafeAdd (a b : ℤ) : SpotResult ℤ :=
  if i64InRange (a + b) then .ok (a + b) else .error .MathError

def i64SafeSub (a b : ℤ) : SpotResult ℤ :=
  if i64InRange (a - b) then .ok (a - b) else .error .MathError

def i64SafeDiv (a b : ℤ) : SpotResult ℤ :=
  if b = 0 ∨ (a = I64MIN ∧ b = -1) then .error .MathError else .ok (a.tdiv b)

def i128SafeAdd (a b : ℤ) : SpotResult ℤ :=
  if i128InRange (a + b) then .ok (a + b) else .error .MathError

def i128SafeSub (a b : ℤ) : SpotResult ℤ :=
  if i128InRange (a - b) then .ok (a - b) else .error .MathError

def i128SafeMul (a b : ℤ) : SpotResult ℤ :=
  if i128InRange (a * b) then .ok (a * b) else .error .MathError

def i128SafeDiv (a b : ℤ) : SpotResult ℤ :=
  if b = 0 ∨ (a = I128MIN ∧ b = -1) then .error .MathError else .ok (a.tdiv b)

/-! ## Casts (casting.rs): `cast` succeeds iff the value fits the target. -/

/-- `i64 as u64` via `TryInto` (`now_ts.cast::<u64>()`). -/
def castI64toU64 (a : ℤ) : SpotResult ℕ :=
  if 0 ≤ a then .ok a.toNat else .error .CastingFailure

/-- `u64 -> i64` cast. -/
def castU64toI64 (a : ℕ) : SpotResult ℤ :=
  if (a : ℤ) ≤ I64MAX then .ok (a : ℤ) else .error .CastingFailure

/-- `i128 -> i64` cast. -/
def castI128toI64 (a : ℤ) : SpotResult ℤ :=
  if i64InRange a then .ok a else .error .CastingFailure

/-! ## Constants (constants.rs) -/

def PERCENTAGE_PRECISION : ℕ := 1000000
def SPOT_UTILIZATION_PRECISION : ℕ := PERCENTAGE_PRECISION
def SPOT_RATE_PRECISION : ℕ := PERCENTAGE_PRECISION
def BID_ASK_SPREAD_PRECISION : ℕ := PERCENTAGE_PRECISION
def BID_ASK_SPREAD_PRECISION_I128 : ℤ := 1000000
def ONE_YEAR : ℕ := 31536000

/-! ## `calculate_utilization` (balance.rs lines 117-136)

The zero/zero default in the source is the literal `0_128`, which in Rust
is the number `128` (an underscore digit separator, not a `u128` suffix). -/

def calculate_utilization (deposit_token_account borrow_token_account : ℕ) :
    SpotResult ℕ := do
  let p ← u128SafeMul borrow_token_account SPOT_UTILIZATION_PRECISION
  let utilization :=
    match u128CheckedDiv p deposit_token_account with
    | some q => q
    | none =>
      if deposit_token_account = 0 ∧ borrow_token_account = 0 then
        128
      else
        SPOT_UTILIZATION_PRECISION
  return utilization

example : calculate_utilization 0 0 = .ok 128 := rfl
example : calculate_utilization 0 5 = .ok 1000000 := rfl
example : calculate_utilization 100 50 = .ok 500000 := rfl

/-! ## Data model (state/enums.rs, state/oracle.rs, state/guard_rails.rs, state/market.rs) -/

/-- `PositionDirection` from enums.rs. -/
inductive PositionDirection where
  | Long
  | Short
  | TwoWay
  deriving DecidableEq, Repr

/-- `SpotBalanceType` from enums.rs. -/
inductive SpotBalanceType where
  | Deposits
  | Borrows
  deriving DecidableEq, Repr

/-- `OracleValidity` from enums.rs (descending severity). -/
inductive OracleValidity where
  | Invalid
  | Volatile
  | Uncertain
  | StaleForMargin
  | InsufficientDataPoints
  | Valid
  deriving DecidableEq, BEq, Repr

/-- `Actions` from enums.rs. -/
inductive Actions where
  | PnLSettlement
  | OrderAdded
  | FillOrder
  | Liquidate
  | MarginCalculation
  | UpdateTWAP
  deriving DecidableEq, BEq, Repr

/-- `OraclePriceData` (state/oracle.rs): `price: i64`, `confidence: u64`,
`delay: i64`, `has_sufficient_data_points: bool`. -/
structure OraclePriceData where
  price : ℤ
  confidence : ℕ
  delay : ℤ
  has_sufficient_data_points : Bool
  deriving DecidableEq, Repr

/-- `HistoricalPriceData` (state/oracle.rs): all six fields. -/
structure HistoricalPriceData where
  last_oracle_price_data : ℤ
  last_oracle_conf : ℕ
  last_oracle_delay : ℤ
  last_oracle_twap : ℤ
  last_oracle_twap_5min : ℤ
  last_oracle_twap_time_stamp : ℤ
  deriving DecidableEq, Repr

/-- `ValidityGuardRails` (state/guard_rails.rs):
`slots_before_stale_for_margin: i64`,
`confidence_interval_max_accepted_divergence: u64`,
`max_volatility_ratio: i64`. -/
structure ValidityGuardRails where
  slots_before_stale_for_margin : ℤ
  confidence_interval_max_accepted_divergence : ℕ
  max_volatility_ratio : ℤ
  deriving DecidableEq, Repr

/-- The fields of `Market` (state/market.rs) read by the embedded math
functions: balances/interest are `u128`, `last_interest_ts` is `u64`, the
rate-curve parameters and `decimals` are `u32`. -/
structure Market where
  deposit_balance : ℕ
  borrow_balance : ℕ
  cumulative_deposit_interest : ℕ
  cumulative_borrow_interest : ℕ
  last_interest_ts : ℕ
  optimal_utilization : ℕ
  optimal_borrow_rate : ℕ
  max_borrow_rate : ℕ
  decimals : ℕ
  deriving Repr

/-! ## `is_oracle_valid_for_action` (oracle_validity.rs lines 46-90) -/

def is_oracle_valid_for_action (action : Option Actions) (validity : OracleValidity) :
    SpotResult Bool :=
  let is_action_valid :=
    match action with
    | some a =>
      match a with
      | .FillOrder => validity == .Valid
      | .MarginCalculation =>
        !(validity == .Invalid || validity == .Volatile || validity == .Uncertain ||
          validity == .StaleForMargin || validity == .InsufficientDataPoints)
      | .OrderAdded =>
        !(validity == .Invalid || validity == .Volatile || validity == .Uncertain)
      | .PnLSettlement =>
        !(validity == .Invalid || validity == .Volatile || validity == .Uncertain)
      | .UpdateTWAP =>
        !(validity == .Invalid || validity == .Volatile || validity == .Uncertain ||
          validity == .InsufficientDataPoints)
      | .Liquidate =>
        !(validity == .Invalid || validity == .Volatile || validity == .Uncertain ||
          validity == .InsufficientDataPoints)
    | none => validity == .Valid
  .ok is_action_valid

/-! ## `oracle_validity` (oracle_validity.rs lines 94-167)

Each failing check performs an early `return Err(...)`; the trailing
if/else chain is kept exactly as in the source (its first four branches
are unreachable after the early returns). -/

def oracle_validity (last_oracle_twap : ℤ) (opd : OraclePriceData)
    (oracle_validity_guard : ValidityGuardRails) : SpotResult OracleValidity := do
  let oracle_price := opd.price
  let oracle_conf := opd.confidence
  let oracle_delay := opd.delay
  let has_sufficient_data_points := opd.has_sufficient_data_points

  let is_oracle_price_negative := oracle_price ≤ 0
  if is_oracle_price_negative then
    throw ErrCode.OracleNegativeError

  let vol_quotient ← i64SafeDiv (max oracle_price last_oracle_twap)
    (max (min last_oracle_twap oracle_price) 1)
  let is_oracle_price_too_volatile :=
    vol_quotient > oracle_validity_guard.max_volatility_ratio
  if is_oracle_price_too_volatile then
    throw ErrCode.OracleTooVolatile

  let conf_times_precision ← u64SafeMul (max 1 oracle_conf) BID_ASK_SPREAD_PRECISION
  let price_u64 ← castI64toU64 oracle_price
  let confidence_as_pct_of_price ← u64SafeDiv conf_times_precision price_u64
  let is_confidence_too_wide :=
    confidence_as_pct_of_price > oracle_validity_guard.confidence_interval_max_accepted_divergence
  if is_confidence_too_wide then
    throw ErrCode.OracleConfidenceTooWide

  let is_oracle_price_stale_for_margin :=
    oracle_delay > oracle_validity_guard.slots_before_stale_for_margin
  if is_oracle_price_stale_for_margin then
    throw ErrCode.OraclePriceStaleForMargin

  let result :=
    if is_oracle_price_negative then OracleValidity.Invalid
    else if is_oracle_price_too_volatile then OracleValidity.Volatile
    else if is_confidence_too_wide then OracleValidity.Uncertain
    else if is_oracle_price_stale_for_margin then OracleValidity.StaleForMargin
    else if ¬has_sufficient_data_points then OracleValidity.InsufficientDataPoints
    else OracleValidity.Valid
  return result

example :
    oracle_validity 34000000 ⟨34000000, 10000, 1, true⟩ ⟨120, 20000, 5⟩ =
      .ok .Valid := rfl
example :
    oracle_validity 34000000 ⟨0, 10000, 1, true⟩ ⟨120, 20000, 5⟩ =
      .error .OracleNegativeError := rfl

/-! ## `calculate_oracle_twap_5min_mark_spread_pct` (oracle_validity.rs lines 260-278) -/

def calculate_oracle_twap_5min_mark_spread_pct (last_acceptable_price : Option ℕ)
    (historical_oracle_data : HistoricalPriceData) : SpotResult ℤ := do
  let price : ℕ :=
    match last_acceptable_price with
    | some price => price
    | none => 0

  let price_i64 ← castU64toI64 price
  let price_spread ← i64SafeSub price_i64 historical_oracle_data.last_oracle_twap_5min

  -- `price_spread.cast::<i128>()` always succeeds (i64 fits i128); likewise
  -- `price.cast::<i128>()` from u64.
  let prod ← i128SafeMul price_spread BID_ASK_SPREAD_PRECISION_I128
  let quotient ← i128SafeDiv prod (price : ℤ)
  castI128toI64 quotient

example :
    calculate_oracle_twap_5min_mark_spread_pct none
      ⟨0, 0, 0, 34000000, 34000000, 1656682258⟩ = .error .MathError := rfl
example :
    calculate_oracle_twap_5min_mark_spread_pct (some 34000000)
      ⟨0, 0, 0, 34000000, 32000000, 1656682258⟩ = .ok 58823 := rfl

/-! ## `checked_floor_div` (floor_div.rs) and `safe_floor_div` (safe_math.rs),
for `i128`. The source subtracts one from the truncated quotient whenever the
remainder is nonzero, with no sign test. -/

def i128CheckedDiv (a b : ℤ) : Option ℤ :=
  if b = 0 ∨ (a = I128MIN ∧ b = -1) then none else some (a.tdiv b)

def i128CheckedRem (a b : ℤ) : Option ℤ :=
  if b = 0 ∨ (a = I128MIN ∧ b = -1) then none else some (a.tmod b)

def i128CheckedSub (a b : ℤ) : Option ℤ :=
  if i128InRange (a - b) then some (a - b) else none

def checked_floor_div (a b : ℤ) : Option ℤ := do
  let quotient ← i128CheckedDiv a b
  let remainder ← i128CheckedRem a b
  if remainder ≠ 0 then
    i128CheckedSub quotient 1
  else
    some quotient

def safe_floor_div (a b : ℤ) : SpotResult ℤ :=
  match checked_floor_div a b with
  | some result => .ok result
  | none => .error .MathError

example : safe_floor_div (-3) 2 = .ok (-2) := rfl
example : safe_floor_div (-3) 0 = .error .MathError := rfl
example : safe_floor_div 7 2 = .ok 2 := rfl
example : safe_floor_div (-155) 8 = .ok (-20) := rfl
example : safe_floor_div (-160) 8 = .ok (-20) := rfl

/-! ## Token amounts and per-market utilization (balance.rs) -/

/-- `u32::safe_sub` (used for `19_u32.safe_sub(market.decimals)`). -/
def u32SafeSub (a b : ℕ) : SpotResult ℕ :=
  if b ≤ a then .ok (a - b) else .error .MathError

/-- `get_amount_of_tokens` (balance.rs lines 63-88): deposits divide down,
borrows divide up. `10_u128.pow(19 - decimals)` cannot overflow once the
`u32` subtraction succeeds, so the power is taken directly. -/
def get_amount_of_tokens (balance : ℕ) (market : Market)
    (balance_type : SpotBalanceType) : SpotResult ℕ := do
  let e ← u32SafeSub 19 market.decimals
  let precision_downtick : ℕ := 10 ^ e

  let cumulative_interest_deposit_borrow :=
    match balance_type with
    | .Deposits => market.cumulative_deposit_interest
    | .Borrows => market.cumulative_borrow_interest

  match balance_type with
  | .Deposits => do
    let p ← u128SafeMul balance cumulative_interest_deposit_borrow
    u128SafeDiv p precision_downtick
  | .Borrows => do
    let p ← u128SafeMul balance cumulative_interest_deposit_borrow
    u128SafeCeilDiv p precision_downtick

/-- `calculate_per_market_utilization` (balance.rs lines 138-160). -/
def calculate_per_market_utilization (market : Market) : SpotResult ℕ := do
  let deposits ← get_amount_of_tokens market.deposit_balance market .Deposits
  let borrows ← get_amount_of_tokens market.borrow_balance market .Borrows
  calculate_utilization deposits borrows

/-! ## The interest-rate curve (balance.rs lines 164-287) -/

structure InterestAccumulated where
  deposits_interest : ℕ
  borrows_interest : ℕ
  deriving DecidableEq, Repr

/-- The `borrow_rate` binding of `calculate_accumulated_interest`
(balance.rs lines 184-240): two-segment piecewise-linear curve with kink at
`optimal_utilization`. The `u32 -> u128` casts of the curve parameters
always succeed and are elided. -/
def calculate_borrow_rate (market : Market) (utilization : ℕ) : SpotResult ℕ :=
  if utilization > market.optimal_utilization then do
    let surplus ← u128SafeSub utilization market.optimal_utilization
    let rate_delta ← u128SafeSub market.max_borrow_rate market.optimal_borrow_rate
    let scaled_delta ← u128SafeMul rate_delta SPOT_UTILIZATION_PRECISION
    let denom ← u128SafeSub SPOT_UTILIZATION_PRECISION market.optimal_utilization
    let borrow_rate_slope ← u128SafeDiv scaled_delta denom
    let surplus_rate ← u128SafeMul surplus borrow_rate_slope
    let surplus_rate_scaled ← u128SafeDiv surplus_rate SPOT_UTILIZATION_PRECISION
    u128SafeAdd market.optimal_borrow_rate surplus_rate_scaled
  else do
    let scaled_rate ← u128SafeMul market.optimal_borrow_rate SPOT_UTILIZATION_PRECISION
    let borrow_rate_slope ← u128SafeDiv scaled_rate market.optimal_utilization
    let unscaled ← u128SafeMul utilization borrow_rate_slope
    u128SafeDiv unscaled SPOT_UTILIZATION_PRECISION

/-- `calculate_accumulated_interest` (balance.rs lines 164-287). -/
def calculate_accumulated_interest (market : Market) (now_ts : ℤ) :
    SpotResult InterestAccumulated := do
  let utilization ← calculate_per_market_utilization market

  if utilization = 0 then
    return ⟨0, 0⟩

  let borrow_rate ← calculate_borrow_rate market utilization

  let now_u64 ←
    match castI64toU64 now_ts with
    | .ok v => pure v
    | .error _ => throw ErrCode.UnableToCastUnixTimestamp
  let time_since_last_update_of_interest ← u64SafeSub now_u64 market.last_interest_ts

  let new_borrow_rate ← u128SafeMul borrow_rate time_since_last_update_of_interest

  let deposit_scaled ← u128SafeMul new_borrow_rate utilization
  let new_deposit_rate ← u128SafeDiv deposit_scaled SPOT_UTILIZATION_PRECISION

  let bi0 ← u128SafeMul market.cumulative_borrow_interest new_borrow_rate
  let bi1 ← u128SafeDiv bi0 ONE_YEAR
  let bi2 ← u128SafeDiv bi1 SPOT_RATE_PRECISION
  let borrow_interest ← u128SafeAdd bi2 1

  let di0 ← u128SafeMul market.cumulative_deposit_interest new_deposit_rate
  let di1 ← u128SafeDiv di0 ONE_YEAR
  let deposit_interest ← u128SafeDiv di1 SPOT_RATE_PRECISION

  return ⟨deposit_interest, borrow_interest⟩

/-! ## Valuation (balance.rs lines 291-354) -/

/-- `get_strict_value` (balance.rs lines 291-332). `10i128.pow(decimals)`
is modelled directly; the `validate!` macro yields `Err(InvalidOracle)`
when its condition fails. -/
def get_strict_value (amount : ℤ) (decimals : ℕ) (oracle_price_data : OraclePriceData)
    (oracle_price_twap : ℤ) : SpotResult ℤ := do
  if amount = 0 then
    return 0

  let precision_downtick : ℤ := 10 ^ decimals

  if ¬(oracle_price_twap > 0 ∧ oracle_price_data.price > 0) then
    throw ErrCode.InvalidOracle

  let price :=
    if amount > 0 then
      if oracle_price_data.price < oracle_price_twap then
        oracle_price_data.price
      else
        oracle_price_twap
    else
      if oracle_price_data.price > oracle_price_twap then
        oracle_price_data.price
      else
        oracle_price_twap

  let token_value ← i128SafeMul amount price

  if token_value < 0 then
    safe_floor_div token_value precision_downtick
  else
    i128SafeDiv token_value precision_downtick

/-- `get_token_value` (balance.rs lines 336-354). -/
def get_token_value (amount : ℤ) (decimals : ℕ) (oracle_price : ℤ) :
    SpotResult ℤ := do
  if amount = 0 then
    return 0

  let precision_downtick : ℤ := 10 ^ decimals

  let token_value_using_oracle ← i128SafeMul amount oracle_price

  if token_value_using_oracle < 0 then
    safe_floor_div token_value_using_oracle (abs precision_downtick)
  else
    i128SafeDiv token_value_using_oracle precision_downtick

example : get_strict_value 0 6 ⟨-5, 0, 0, false⟩ (-7) = .ok 0 := rfl
example : get_token_value 0 6 (-5) = .ok 0 := rfl
example : get_strict_value 2 6 ⟨-5, 0, 0, false⟩ 3 = .error .InvalidOracle := rfl

/-! ## `standardize_price` (price.rs lines 9-29), for `u64` -/

def standardize_price (price tick_size : ℕ)
    (position_direction : PositionDirection) : SpotResult ℕ := do
  if price = 0 then
    return 0

  let remainder ←
    match u64CheckedRemEuclid price tick_size with
    | some r => pure r
    | none => throw ErrCode.MathError

  if remainder = 0 then
    return price

  match position_direction with
  | .Long => u64SafeSub price remainder
  | .Short => do
    let uptick ← u64SafeSub tick_size remainder
    u64SafeAdd price uptick
  | .TwoWay => u64SafeAdd price tick_size

example : standardize_price 0 10 .Short = .ok 0 := rfl
example : standardize_price 105 10 .Long = .ok 100 := rfl
example : standardize_price 105 10 .Short = .ok 110 := rfl
example : standardize_price 105 10 .TwoWay = .ok 115 := rfl
example : standardize_price 100 10 .TwoWay = .ok 100 := rfl

/-! ## `weighted_average` (twap.rs lines 21-59)

The `i64 -> i128` casts always succeed and are elided; the products and the
denominator are computed before the zero-weight early returns, exactly as
in the source. -/

def weighted_average (data_point_1 data_point_2 weightage_1 weightage_2 : ℤ) :
    SpotResult ℤ := do
  let denominator ← i64SafeAdd weightage_1 weightage_2

  let previous_twap ← i128SafeMul data_point_1 weightage_1

  let weighted_price ← i128SafeMul data_point_2 weightage_2

  if weightage_1 = 0 then
    return data_point_2

  if weightage_2 = 0 then
    return data_point_1

  let x : ℤ :=
    if weightage_2 > 1 then
      if weighted_price < previous_twap then -1
      else if weighted_price > previous_twap then 1
      else 0
    else 0

  let total ← i128SafeAdd previous_twap weighted_price
  let quotient ← i128SafeDiv total denominator
  let twap ← castI128toI64 quotient
  i64SafeAdd twap x

example : weighted_average 100 200 0 7 = .ok 200 := rfl
example : weighted_average 100 200 7 0 = .ok 100 := rfl
example : weighted_average 100 200 0 0 = .ok 200 := rfl
example : weighted_average 100 200 1 3 = .ok 176 := rfl

/-! ## Wide-integer little-endian byte buffers (bignumber.rs)

`to_le_bytes` builds its scratch buffer with `Vec::with_capacity(size_of::<Self>())`,
which allocates capacity but leaves the vector's length at 0. The uint
crate's `to_little_endian` writes through the handed-out `&mut [u8]` slice
(here: the empty one), and `<[u8]>::copy_from_slice` panics whenever source
and destination lengths differ. Panics are modelled as `none`. -/

/-- Little-endian value of a byte list. -/
def leValue (bytes : List ℕ) : ℕ :=
  bytes.foldr (fun b acc => acc * 256 + b) 0

/-- uint's `to_little_endian`: writes one byte per slice position. -/
def toLittleEndianInto (x : ℕ) (buf : List ℕ) : List ℕ :=
  (List.range buf.length).map fun i => x / 256 ^ i % 256

/-- `<[u8]>::copy_from_slice`: panics (`none`) unless the lengths match. -/
def copyFromSlice (dst src : List ℕ) : Option (List ℕ) :=
  if src.length = dst.length then some src else none

/-- `U256::to_le_bytes` (bignumber.rs lines 97-108). -/
def u256_to_le_bytes (x : ℕ) : Option (List ℕ) :=
  let buf : List ℕ := []
  let buf := toLittleEndianInto x buf
  let bytes := List.replicate 32 0
  copyFromSlice bytes buf

/-- `U192::to_le_bytes` (bignumber.rs lines 146-157): same shape, and its
return type is also a 32-byte array even though `U192` is 24 bytes wide. -/
def u192_to_le_bytes (x : ℕ) : Option (List ℕ) :=
  let buf : List ℕ := []
  let buf := toLittleEndianInto x buf
  let bytes := List.replicate 32 0
  copyFromSlice bytes buf

/-- `U256::from_le_bytes` (bignumber.rs lines 92-94): takes a `[u8; 32]`;
uint's `from_little_endian` asserts the slice is at most the integer's
byte width. -/
def u256_from_le_bytes (bytes : List ℕ) : Option ℕ :=
  if bytes.length = 32 then
    if bytes.length ≤ 32 then some (leValue bytes) else none
  else none

/-- `U192::from_le_bytes` (bignumber.rs lines 141-143): takes a `[u8; 32]`
but `U192` is 24 bytes wide, so uint's length assertion always fires. -/
def u192_from_le_bytes (bytes : List ℕ) : Option ℕ :=
  if bytes.length = 32 then
    if bytes.length ≤ 24 then some (leValue bytes) else none
  else none

example : u256_to_le_bytes 0 = none := rfl
example : u256_to_le_bytes 1 = none := rfl
example : u192_to_le_bytes 0 = none := rfl
example : u192_from_le_bytes (List.replicate 32 0) = none := rfl

/-- The whitelist table exactly as claim C5 words it (spec §4.5), to be
compared against `is_oracle_valid_for_action`. -/
def claimWhitelist (action : Option Actions) (validity : OracleValidity) : Bool :=
  match action with
  | some .FillOrder => validity == .Valid
  | some .MarginCalculation => validity == .Valid
  | some .OrderAdded =>
    !(validity == .Invalid || validity == .Volatile || validity == .Uncertain)
  | some .PnLSettlement =>
    !(validity == .Invalid || validity == .Volatile || validity == .Uncertain)
  | some .UpdateTWAP =>
    !(validity == .Invalid || validity == .Volatile || validity == .Uncertain ||
      validity == .InsufficientDataPoints)
  | some .Liquidate =>
    !(validity == .Invalid || validity == .Volatile || validity == .Uncertain ||
      validity == .InsufficientDataPoints)
  | none => validity == .Valid

/-- The §8 scenario market: decimals 6, optimal utilization 80%, optimal
borrow rate 10%, max borrow rate 100%, all in 1e6 precision. The balance
fields are not read by the borrow-rate curve. -/
def scenarioMarket : Market where
  deposit_balance := 1000000000
  borrow_balance := 800000000
  cumulative_deposit_interest := 10000000000
  cumulative_borrow_interest := 10000000000
  last_interest_ts := 0
  optimal_utilization := 800000
  optimal_borrow_rate := 100000
  max_borrow_rate := 1000000
  decimals := 6

/-! ## Helper lemmas for stepping through the `Except` chains -/

theorem ok_bind {α β : Type} (a : α) (f : α → SpotResult β) :
    (Except.ok a >>= f) = f a := rfl

theorem spot_pure_bind {α β : Type} (a : α) (f : α → SpotResult β) :
    ((pure a : SpotResult α) >>= f) = f a := rfl

theorem u128SafeAdd_ok {a b : ℕ} (h : a + b ≤ U128MAX) :
    u128SafeAdd a b = .ok (a + b) := if_pos h

theorem u128SafeSub_ok {a b : ℕ} (h : b ≤ a) :
    u128SafeSub a b = .ok (a - b) := if_pos h

theorem u128SafeMul_ok {a b : ℕ} (h : a * b ≤ U128MAX) :
    u128SafeMul a b = .ok (a * b) := if_pos h

theorem u128SafeDiv_ok {a b : ℕ} (h : b ≠ 0) :
    u128SafeDiv a b = .ok (a / b) := if_neg h

theorem u64SafeAdd_ok {a b : ℕ} (h : a + b ≤ U64MAX) :
    u64SafeAdd a b = .ok (a + b) := if_pos h

theorem u64SafeSub_ok {a b : ℕ} (h : b ≤ a) :
    u64SafeSub a b = .ok (a - b) := if_pos h

theorem i64SafeAdd_ok {a b : ℤ} (h : i64InRange (a + b)) :
    i64SafeAdd a b = .ok (a + b) := if_pos h

theorem i128SafeMul_ok {a b : ℤ} (h : i128InRange (a * b)) :
    i128SafeMul a b = .ok (a * b) := if_pos h

/-- The product of two `i64`-range values always fits in `i128`. -/
theorem i64_mul_fits_i128 {a b : ℤ} (ha : i64InRange a) (hb : i64InRange b) :
    i128InRange (a * b) := by
  simp only [i64InRange, I64MIN, I64MAX] at ha hb
  obtain ⟨ha1, ha2⟩ := ha
  obtain ⟨hb1, hb2⟩ := hb
  have haa : |a| ≤ 2 ^ 63 := abs_le.mpr ⟨by linarith, by linarith⟩
  have hbb : |b| ≤ 2 ^ 63 := abs_le.mpr ⟨by linarith, by linarith⟩
  have hab : |a * b| ≤ 2 ^ 126 := by
    rw [abs_mul]
    calc |a| * |b| ≤ 2 ^ 63 * 2 ^ 63 :=
          mul_le_mul haa hbb (abs_nonneg b) (by positivity)
      _ = 2 ^ 126 := by norm_num
  obtain ⟨hl, hr⟩ := abs_le.mp hab
  simp only [i128InRange, I128MIN, I128MAX]
  constructor
  · have h2 : (-(2 : ℤ) ^ 127) ≤ -(2 ^ 126) := by norm_num
    linarith
  · have h2 : ((2 : ℤ) ^ 126) ≤ 2 ^ 127 - 1 := by norm_num
    linarith

/-! ## Claim theorems -/

/-- Claim C1: the spec says `calculate_utilization(0, 0) = 0` and
`calculate_utilization(0, b) = SPOT_UTILIZATION_PRECISION` for `b > 0`.
The code's zero/zero default is the literal `0_128`, i.e. the number 128
(underscore digit separator, not a `u128` suffix), so the zero/zero case
returns 128, not 0; the zero-deposit positive-borrow case does saturate to
the precision. -/
theorem calculate_utilization_zero_deposit_zero_borrow_returns_128 :
    calculate_utilization 0 0 = .ok 128 ∧
    calculate_utilization 0 0 ≠ .ok 0 ∧
    calculate_utilization 0 5 = .ok SPOT_UTILIZATION_PRECISION := by
  refine ⟨rfl, ?_, rfl⟩
  intro h
  injection h with h'
  exact absurd h' (by decide)

/-- Claim C2: the claim says `oracle_validity` returns the classification
`OracleValidity::Invalid` (not an error) for every input with
`price <= 0`. The code instead performs an early
`return Err(OracleNegativeError)`; the `Invalid` arm of its trailing
classification chain is unreachable. -/
theorem oracle_validity_nonpositive_price_returns_error
    (last_oracle_twap : ℤ) (opd : OraclePriceData) (g : ValidityGuardRails)
    (h : opd.price ≤ 0) :
    oracle_validity last_oracle_twap opd g = .error .OracleNegativeError := by
  simp only [oracle_validity]
  rw [if_pos h]
  rfl

/-- Witness for C2 at the spec's nominal scenario with the price lowered
to zero. -/
theorem oracle_validity_nonpositive_price_returns_error_witness :
    oracle_validity 34000000 ⟨0, 10000, 1, true⟩ ⟨120, 20000, 5⟩ =
      .error .OracleNegativeError :=
  oracle_validity_nonpositive_price_returns_error 34000000
    ⟨0, 10000, 1, true⟩ ⟨120, 20000, 5⟩ (by decide)

/-- Claim C3: the claim says a zero (or absent) mark price yields spread 0
instead of a division-by-zero error. The code divides by the mark price
with no zero guard, so an absent mark price yields `Err(MathError)`; the
nonzero-mark formula `(mark - twap_5min) * BID_ASK_SPREAD_PRECISION / mark`
does hold (shown here at mark 34.0, twap 32.0 in PRICE_PRECISION). -/
theorem mark_spread_pct_zero_mark_price_math_error :
    calculate_oracle_twap_5min_mark_spread_pct none
      ⟨0, 0, 0, 34000000, 34000000, 1656682258⟩ = .error .MathError ∧
    calculate_oracle_twap_5min_mark_spread_pct (some 0)
      ⟨0, 0, 0, 0, 0, 0⟩ = .error .MathError ∧
    calculate_oracle_twap_5min_mark_spread_pct (some 34000000)
      ⟨0, 0, 0, 34000000, 32000000, 1656682258⟩ = .ok 58823 :=
  ⟨rfl, rfl, rfl⟩

/-- Claim C4: the claim says `safe_floor_div` rounds toward minus
infinity, e.g. `floor_div(-3, 2) = -2`, `floor_div(7, 2) = 3`, and
division by zero errors. The code subtracts one from the truncated
quotient whenever the remainder is nonzero, with no sign test, so
`safe_floor_div(7, 2) = 2` while the floor is 3. -/
theorem checked_floor_div_deviates_from_floor_on_positive :
    safe_floor_div (-3) 2 = .ok (-2) ∧
    safe_floor_div (-3) 0 = .error .MathError ∧
    safe_floor_div 7 2 = .ok 2 ∧
    Int.fdiv 7 2 = 3 :=
  ⟨rfl, rfl, rfl, rfl⟩

/-- Claim C5: `is_oracle_valid_for_action` implements exactly the
whitelist table (`FillOrder`/`MarginCalculation`/no action: only `Valid`;
`OrderAdded`/`PnLSettlement`: everything except `Invalid`, `Volatile`,
`Uncertain`; `UpdateTWAP`/`Liquidate`: additionally rejecting
`InsufficientDataPoints`), over all `(Option Action, OracleValidity)`
combinations. -/
theorem is_oracle_valid_for_action_matches_whitelist
    (action : Option Actions) (validity : OracleValidity) :
    is_oracle_valid_for_action action validity =
      .ok (claimWhitelist action validity) := by
  cases action with
  | none => cases validity <;> rfl
  | some a => cases a <;> cases validity <;> rfl

/-- Claim C8: the claim says `to_le_bytes`/`from_le_bytes` round-trip
every `U256`/`U192` value. In the code `to_le_bytes` fills its scratch
buffer from `Vec::with_capacity(..)` — length 0 — and then calls
`copy_from_slice` into a 32-byte array, which panics on the length
mismatch for every value; `U192::from_le_bytes` additionally demands a
32-byte array for a 24-byte-wide integer, tripping uint's length
assertion. -/
theorem wide_int_to_le_bytes_always_panics :
    u256_to_le_bytes 0 = none ∧
    u256_to_le_bytes 1 = none ∧
    u256_to_le_bytes (2 ^ 256 - 1) = none ∧
    u192_to_le_bytes 0 = none ∧
    u192_to_le_bytes (2 ^ 192 - 1) = none ∧
    u192_from_le_bytes (List.replicate 32 0) = none :=
  ⟨rfl, rfl, rfl, rfl, rfl, rfl⟩

/-- Counterexample to claim C7 as stated: at `price = u64::MAX` and
`tick_size = 2` the Short-direction rounding would exceed `u64::MAX`, so
`standardize_price` returns `Err(MathError)` and no Short result bounding
the price from above exists. -/
theorem standardize_price_short_overflow_counterexample :
    standardize_price U64MAX 2 .Short = .error .MathError ∧
    ∀ r, standardize_price U64MAX 2 .Short ≠ .ok r := by
  refine ⟨rfl, ?_⟩
  intro r h
  rw [show standardize_price U64MAX 2 .Short = .error .MathError from rfl] at h
  exact Except.noConfusion h

/-- Claim C7 (amended): for every nonzero `u64` price and tick size, the
Long result exists, is at most the price, and is an exact multiple of the
tick size; whenever the Short direction returns a result it is at least
the price and an exact multiple of the tick size (rounding up can overflow
`u64` near `u64::MAX`); and a price of 0 is returned unchanged for every
direction. -/
theorem standardize_price_sandwich
    (price tick_size : ℕ) (hp : price ≤ U64MAX) (ht : tick_size ≤ U64MAX)
    (hp0 : price ≠ 0) (ht0 : tick_size ≠ 0) :
    (∃ pl, standardize_price price tick_size .Long = .ok pl ∧
      pl ≤ price ∧ tick_size ∣ pl) ∧
    (∀ ps, standardize_price price tick_size .Short = .ok ps →
      price ≤ ps ∧ tick_size ∣ ps) ∧
    (∀ dir, standardize_price 0 tick_size dir = .ok 0) := by
  have hrem : u64CheckedRemEuclid price tick_size = some (price % tick_size) :=
    if_neg ht0
  refine ⟨?_, ?_, fun dir => rfl⟩
  · simp only [standardize_price, if_neg hp0, hrem, ok_bind, spot_pure_bind]
    by_cases hr : price % tick_size = 0
    · rw [if_pos hr]
      exact ⟨price, rfl, le_refl _, Nat.dvd_of_mod_eq_zero hr⟩
    · rw [if_neg hr, u64SafeSub_ok (Nat.mod_le price tick_size)]
      refine ⟨price - price % tick_size, rfl, Nat.sub_le _ _,
        ⟨price / tick_size, ?_⟩⟩
      have hdm := Nat.div_add_mod price tick_size
      omega
  · simp only [standardize_price, if_neg hp0, hrem, ok_bind, spot_pure_bind]
    by_cases hr : price % tick_size = 0
    · rw [if_pos hr]
      intro ps h
      injection h with h'
      subst h'
      exact ⟨le_refl _, Nat.dvd_of_mod_eq_zero hr⟩
    · have hlt : price % tick_size < tick_size :=
        Nat.mod_lt price (Nat.pos_of_ne_zero ht0)
      rw [if_neg hr, u64SafeSub_ok (le_of_lt hlt), ok_bind]
      intro ps h
      unfold u64SafeAdd at h
      split at h
      · injection h with h'
        subst h'
        refine ⟨Nat.le_add_right _ _, ⟨price / tick_size + 1, ?_⟩⟩
        have hdm := Nat.div_add_mod price tick_size
        rw [Nat.mul_succ]
        omega
      · exact Except.noConfusion h

/-- Witness for C7 at price 7, tick size 2 (Long result 6). -/
theorem standardize_price_sandwich_witness :
    ∃ pl, standardize_price 7 2 .Long = .ok pl ∧ pl ≤ 7 ∧ 2 ∣ pl :=
  (standardize_price_sandwich 7 2 (by decide) (by decide) (by decide)
    (by decide)).1

/-- Counterexample to claim C9 as stated: with both weights zero, the
first zero-weight branch wins and the second data point is returned, so
`weighted_average(v1, v2, w1, 0)` does not return `v1` at `w1 = 0`. -/
theorem weighted_average_both_weights_zero_counterexample :
    weighted_average 1 2 0 0 = .ok 2 ∧ weighted_average 1 2 0 0 ≠ .ok 1 := by
  refine ⟨rfl, ?_⟩
  intro h
  injection h with h'
  exact absurd h' (by decide)

/-- Claim C9 (amended): for `i64` inputs, `weighted_average(v1, v2, 0, w2)`
returns `v2` unchanged for every remaining weight, and
`weighted_average(v1, v2, w1, 0)` returns `v1` unchanged for every nonzero
`w1` (at `w1 = 0` the first zero-weight check wins and `v2` is returned
instead). -/
theorem weighted_average_zero_weight_returns_other
    (v1 v2 w : ℤ) (h1 : i64InRange v1) (h2 : i64InRange v2) (hw : i64InRange w) :
    weighted_average v1 v2 0 w = .ok v2 ∧
    (w ≠ 0 → weighted_average v1 v2 w 0 = .ok v1) := by
  constructor
  · have e1 : i64SafeAdd 0 w = .ok (0 + w) := i64SafeAdd_ok (by rwa [zero_add])
    have e2 : i128SafeMul v1 0 = .ok (v1 * 0) :=
      i128SafeMul_ok (by norm_num [i128InRange, I128MIN, I128MAX])
    have e3 : i128SafeMul v2 w = .ok (v2 * w) :=
      i128SafeMul_ok (i64_mul_fits_i128 h2 hw)
    simp only [weighted_average, e1, e2, e3, ok_bind, eq_self_iff_true, if_true]
    rfl
  · intro hne
    have e1 : i64SafeAdd w 0 = .ok (w + 0) := i64SafeAdd_ok (by rwa [add_zero])
    have e2 : i128SafeMul v1 w = .ok (v1 * w) :=
      i128SafeMul_ok (i64_mul_fits_i128 h1 hw)
    have e3 : i128SafeMul v2 0 = .ok (v2 * 0) :=
      i128SafeMul_ok (by norm_num [i128InRange, I128MIN, I128MAX])
    simp only [weighted_average, e1, e2, e3, ok_bind, if_neg hne,
      eq_self_iff_true, if_true]
    rfl

/-- Witness for C9 at `(5, 9, 0, 3)` and `(5, 9, 7, 0)`. -/
theorem weighted_average_zero_weight_returns_other_witness :
    weighted_average 5 9 0 3 = .ok 9 ∧
    (weighted_average 5 9 7 0 = .ok 5) :=
  ⟨(weighted_average_zero_weight_returns_other 5 9 3 (by decide) (by decide)
      (by decide)).1,
    (weighted_average_zero_weight_returns_other 5 9 7 (by decide) (by decide)
      (by decide)).2 (by decide)⟩

/-- Claim C10: with `amount = 0`, `get_strict_value` and `get_token_value`
return `Ok(0)` immediately for every other input — in particular
`get_strict_value` succeeds even when the oracle price or the TWAP is
nonpositive, because the `InvalidOracle` validation sits after the early
return. -/
theorem zero_amount_values_return_zero :
    (∀ (decimals : ℕ) (opd : OraclePriceData) (twap : ℤ),
      get_strict_value 0 decimals opd twap = .ok 0) ∧
    (∀ (decimals : ℕ) (p : ℤ), get_token_value 0 decimals p = .ok 0) :=
  ⟨fun _ _ _ => rfl, fun _ _ => rfl⟩

/-- Claim C6: in `calculate_accumulated_interest` with the spec's scenario
market (decimals 6, optimal utilization 80%, optimal borrow rate 10%, max
borrow rate 100%, 1e6 precision), the borrow rate at utilization exactly
80% equals the optimal borrow rate exactly (below-or-at-kink branch), and
for utilization strictly between 80% and full precision it equals the
stress-segment formula `optimal + surplus * slope / PRECISION` with slope
`(max - optimal) * PRECISION / (PRECISION - optimal_utilization) = 4500000`
and lies strictly between the optimal and max borrow rates. -/
theorem borrow_rate_at_and_above_kink :
    calculate_borrow_rate scenarioMarket 800000 = .ok 100000 ∧
    ∀ u : ℕ, 800000 < u → u < 1000000 →
      calculate_borrow_rate scenarioMarket u =
        .ok (100000 + (u - 800000) * 4500000 / 1000000) ∧
      100000 < 100000 + (u - 800000) * 4500000 / 1000000 ∧
      100000 + (u - 800000) * 4500000 / 1000000 < 1000000 := by
  constructor
  · rfl
  · intro u h1 h2
    have hs : u - 800000 ≤ 199999 := by omega
    have hprod : (u - 800000) * 4500000 ≤ 899995500000 := by
      calc (u - 800000) * 4500000 ≤ 199999 * 4500000 :=
            Nat.mul_le_mul_right _ hs
        _ = 899995500000 := by norm_num
    have hq : (u - 800000) * 4500000 / 1000000 ≤ 899995 := by
      calc (u - 800000) * 4500000 / 1000000 ≤ 899995500000 / 1000000 :=
            Nat.div_le_div_right hprod
        _ = 899995 := by norm_num
    have hqlow : 4 ≤ (u - 800000) * 4500000 / 1000000 := by
      have h1' : 1 ≤ u - 800000 := by omega
      have hstep : 4500000 ≤ (u - 800000) * 4500000 := by
        calc 4500000 = 1 * 4500000 := by norm_num
          _ ≤ (u - 800000) * 4500000 := Nat.mul_le_mul_right _ h1'
      calc 4 = 4500000 / 1000000 := by norm_num
        _ ≤ (u - 800000) * 4500000 / 1000000 := Nat.div_le_div_right hstep
    refine ⟨?_, by omega, by omega⟩
    have e1 : u128SafeSub u 800000 = .ok (u - 800000) :=
      u128SafeSub_ok (by omega)
    have e2 : u128SafeSub 1000000 100000 = Except.ok (ε := ErrCode) 900000 := rfl
    have e3 : u128SafeMul 900000 SPOT_UTILIZATION_PRECISION =
        Except.ok (ε := ErrCode) 900000000000 := rfl
    have e4 : u128SafeSub SPOT_UTILIZATION_PRECISION 800000 =
        Except.ok (ε := ErrCode) 200000 := rfl
    have e5 : u128SafeDiv 900000000000 200000 =
        Except.ok (ε := ErrCode) 4500000 := rfl
    have e6 : u128SafeMul (u - 800000) 4500000 =
        .ok ((u - 800000) * 4500000) :=
      u128SafeMul_ok (le_trans hprod (by norm_num [U128MAX]))
    have e7 : u128SafeDiv ((u - 800000) * 4500000) SPOT_UTILIZATION_PRECISION =
        .ok ((u - 800000) * 4500000 / 1000000) := by
      rw [show SPOT_UTILIZATION_PRECISION = 1000000 from rfl]
      exact u128SafeDiv_ok (by norm_num)
    have e8 : u128SafeAdd 100000 ((u - 800000) * 4500000 / 1000000) =
        .ok (100000 + (u - 800000) * 4500000 / 1000000) := by
      refine u128SafeAdd_ok ?_
      have h999 : 100000 + (u - 800000) * 4500000 / 1000000 ≤ 999995 := by
        omega
      exact le_trans h999 (by norm_num [U128MAX])
    simp only [calculate_borrow_rate, scenarioMarket]
    rw [if_pos (show u > 800000 from h1)]
    rw [e1]; refine Eq.trans (ok_bind _ _) ?_
    rw [e2]; refine Eq.trans (ok_bind _ _) ?_
    rw [e3]; refine Eq.trans (ok_bind _ _) ?_
    rw [e4]; refine Eq.trans (ok_bind _ _) ?_
    rw [e5]; refine Eq.trans (ok_bind _ _) ?_
    rw [e6]; refine Eq.trans (ok_bind _ _) ?_
    rw [e7]; refine Eq.trans (ok_bind _ _) ?_
    exact e8

/-- Witness for C6 at utilization 90%: the stress-segment rate is 55%. -/
theorem borrow_rate_at_and_above_kink_witness :
    calculate_borrow_rate scenarioMarket 900000 =
        .ok (100000 + (900000 - 800000) * 4500000 / 1000000) ∧
      100000 < 100000 + (900000 - 800000) * 4500000 / 1000000 ∧
      100000 + (900000 - 800000) * 4500000 / 1000000 < 1000000 :=
  borrow_rate_at_and_above_kink.2 900000 (by decide) (by decide)

end SpotMargin
